import Mathlib

/-!
Verification of the speech-therapy analytical core against its
natural-language specification.

The Python sources are shallowly embedded: strings are `String`/`List Char`,
Python `float` arithmetic on the small decimal constants involved is exact and
is modelled by `ℚ`, database query results are passed in as explicit lists,
and code that can raise an exception is modelled in `Except String`.

The `doublemetaphone` function comes from an external library (the `metaphone`
package); it is not part of this repository, so every definition that uses it
is parametrised by an arbitrary function `dm : String → String × String`
standing for `doublemetaphone`, and theorems assume only properties of `dm`
that the real library visibly has (e.g. `doublemetaphone("") = ("","")`).
-/

namespace SpeechTherapy

/-! ## Python string primitives

`str.lower` (modelled on the ASCII range: every input exercised below is
ASCII), `str.split()` (split on runs of whitespace, dropping empties), and
the character class tests used by the regexes in
`app/services/pronunciation_analysis.py`. -/

/-- ASCII lowercasing of one character, as Python `str.lower` acts on the
ASCII range. -/
def pyToLower (c : Char) : Char :=
  if c = 'A' then 'a' else if c = 'B' then 'b' else if c = 'C' then 'c'
  else if c = 'D' then 'd' else if c = 'E' then 'e' else if c = 'F' then 'f'
  else if c = 'G' then 'g' else if c = 'H' then 'h' else if c = 'I' then 'i'
  else if c = 'J' then 'j' else if c = 'K' then 'k' else if c = 'L' then 'l'
  else if c = 'M' then 'm' else if c = 'N' then 'n' else if c = 'O' then 'o'
  else if c = 'P' then 'p' else if c = 'Q' then 'q' else if c = 'R' then 'r'
  else if c = 'S' then 's' else if c = 'T' then 't' else if c = 'U' then 'u'
  else if c = 'V' then 'v' else if c = 'W' then 'w' else if c = 'X' then 'x'
  else if c = 'Y' then 'y' else if c = 'Z' then 'z' else c

/-- The whitespace characters Python `str.split()` splits on
(space, tab, newline, carriage return, vertical tab, form feed). -/
def isPyWS (c : Char) : Bool :=
  c = ' ' || c = '\t' || c = '\n' || c = '\r' || c = '\x0b' || c = '\x0c'

/-- Cut a character list at every whitespace character, keeping the
(possibly empty) chunks between cuts. -/
def wsChunks (cs : List Char) : List (List Char) :=
  cs.foldr
    (fun c acc =>
      match acc with
      | [] => [[]]
      | t :: ts => if isPyWS c then [] :: t :: ts else (c :: t) :: ts)
    [[]]

/-- Python `str.split()` on a character list: whitespace-separated tokens,
empties dropped. -/
def pyTokens (cs : List Char) : List (List Char) :=
  (wsChunks cs).filter (fun t => !t.isEmpty)

/-- Python `str.split()` on a `String`. -/
def pySplit (s : String) : List String :=
  (pyTokens s.toList).map (fun t => String.mk t)

/-- Python `str.lower()` on a `String` (ASCII range). -/
def pyLower (s : String) : String :=
  String.mk (s.toList.map pyToLower)

/-! ## `app/services/pronunciation_analysis.py` -/

/-- The fixed table of articulation-confusable phoneme groups
(`PHONEME_GROUPS`, lines 7-18 of `pronunciation_analysis.py`). -/
def PHONEME_GROUPS : List (List String) :=
  [ ["r", "l", "w", "ɹ", "ʋ"],
    ["s", "sh", "z", "th", "f", "θ", "ð"],
    ["t", "d", "ʔ", "ɾ"],
    ["k", "g", "q"],
    ["m", "n", "ŋ"],
    ["p", "b", "β"],
    ["ch", "sh", "j", "zh"],
    ["ah", "a", "æ", "ə"],
    ["oh", "o", "ɔ", "ow"],
    ["ee", "i", "ɪ", "iy"] ]

/-- A word character for the two normalisation regexes.  The regex class is
`\w`, but the regexes run after `re.sub(r'[^a-z ]', '', text)`, so only the
letters `a`-`z` can occur as word characters there. -/
def isWordCh (c : Char) : Bool := 'a' ≤ c && c ≤ 'z'

/-- A separator character of the regex classes `[- ]` / `[ -]`. -/
def isSepCh (c : Char) : Bool := c = '-' || c = ' '

/-- One attempted match of `\b(\w)[- ]+\1` at the current position: after the
leading word character `c`, a nonempty separator run followed by `c` again.
Returns the rest of the input after the match when it succeeds.  (`[- ]+` is
greedy, and since the backreference starts with a letter, no shorter
separator run can succeed.) -/
def stutterMatch (c : Char) (rest : List Char) : Option (List Char) :=
  let seps := rest.takeWhile isSepCh
  let after := rest.drop seps.length
  if seps.length > 0 && after.headD ' ' = c && !after.isEmpty then
    some (after.drop 1)
  else
    none

/-- Scanning loop of `re.sub(r'\b(\w)[- ]+\1', r'\1', text)`: left-to-right
non-overlapping replacement.  `prevWord` says whether the previous character
of the original text was a word character (for the `\b` boundary).  Every
step consumes at least one character, so the fuel (initialised to the input
length by `subStutter`) is never exhausted; the fuel-out branch is
unreachable. -/
def subStutterGo : Nat → Bool → List Char → List Char
  | _, _, [] => []
  | 0, _, cs => cs
  | fuel + 1, prevWord, c :: rest =>
    if !prevWord && isWordCh c then
      match stutterMatch c rest with
      | some rest' => c :: subStutterGo fuel true rest'
      | none => c :: subStutterGo fuel true rest
    else
      c :: subStutterGo fuel (isWordCh c) rest

/-- `re.sub(r'\b(\w)[- ]+\1', r'\1', text)`. -/
def subStutter (cs : List Char) : List Char :=
  subStutterGo cs.length false cs

/-- One attempted match of `(\w+)[ -]+\1` at the current position: the group
must be the whole maximal word run starting here (a shorter group would leave
a word character where `[ -]+` needs a separator), then a greedy nonempty
separator run, then the group again as a backreference (a prefix match
suffices).  Returns the matched word and the rest after the match. -/
def wordRepeatMatch (c : Char) (rest : List Char) : Option (List Char × List Char) :=
  let w := c :: rest.takeWhile isWordCh
  let afterW := rest.drop (w.length - 1)
  let seps := afterW.takeWhile isSepCh
  let afterSeps := afterW.drop seps.length
  if seps.length > 0 && afterSeps.take w.length = w then
    some (w, afterSeps.drop w.length)
  else
    none

/-- Scanning loop of `re.sub(r'(\w+)[ -]+\1', r'\1', text)`: left-to-right
non-overlapping replacement.  Every step consumes at least one character, so
the fuel (initialised to the input length by `subWordRepeat`) is never
exhausted; the fuel-out branch is unreachable. -/
def subWordRepeatGo : Nat → List Char → List Char
  | _, [] => []
  | 0, cs => cs
  | fuel + 1, c :: rest =>
    if isWordCh c then
      match wordRepeatMatch c rest with
      | some (w, rest') => w ++ subWordRepeatGo fuel rest'
      | none => c :: subWordRepeatGo fuel rest
    else
      c :: subWordRepeatGo fuel rest

/-- `re.sub(r'(\w+)[ -]+\1', r'\1', text)`. -/
def subWordRepeat (cs : List Char) : List Char :=
  subWordRepeatGo cs.length cs

/-- Keep only the characters matched by the class `[a-z ]`
(the complement of `re.sub(r'[^a-z ]', '', text)`). -/
def keepLetterSpace (cs : List Char) : List Char :=
  cs.filter (fun c => ('a' ≤ c && c ≤ 'z') || c = ' ')

/-- `normalize_disfluencies` (lines 23-40): lowercase, strip everything but
letters and spaces, apply the two disfluency-collapsing substitutions, then
keep the last whitespace-delimited token (or `""`). -/
def normalize_disfluencies (text : String) : String :=
  let t1 := text.toList.map pyToLower
  let t2 := keepLetterSpace t1
  let t3 := subStutter t2
  let t4 := subWordRepeat t3
  match (pyTokens t4).getLast? with
  | some w => String.mk w
  | none => ""

/-- `is_echolalic` (lines 43-46): the lowercased transcript splits into more
than one token and all tokens are equal. -/
def is_echolalic (actual : String) : Bool :=
  match pySplit (pyLower actual) with
  | [] => false
  | [_] => false
  | w :: ws => ws.all (fun u => u == w)

/-- Interior step of `get_phonetic_variants`: for the character at the
current position (split as `pre ++ c :: suf`), every sound of every phoneme
group containing `c` substituted at that position. -/
def variantsGo (pre : List Char) : List Char → List String
  | [] => []
  | c :: suf =>
    (PHONEME_GROUPS.filter (fun g => g.contains (String.mk [c]))).flatMap
      (fun g => g.map (fun sound => String.mk (pre ++ sound.toList ++ suf)))
    ++ variantsGo (pre ++ [c]) suf

/-- `get_phonetic_variants` (lines 49-58), as a list whose membership agrees
with the Python set. -/
def get_phonetic_variants (word : String) : List String :=
  variantsGo [] word.toList

/-- One row of the Levenshtein dynamic program: `ds` is the previous row
(starting at the diagonal entry), `left` the entry just computed. -/
def levRowGo (ca : Char) : List Char → List Nat → Nat → List Nat
  | [], _, _ => []
  | cb :: bs, ds, left =>
    let diag := ds.headD 0
    let rest := ds.tail
    let up := rest.headD 0
    let cur := min (min (up + 1) (left + 1)) (diag + if ca = cb then 0 else 1)
    cur :: levRowGo ca bs rest cur

/-- `Levenshtein.distance` from the `python-Levenshtein` library: the
standard unit-cost edit distance. -/
def levenshtein (a b : String) : Nat :=
  let bs := b.toList
  let final := a.toList.foldl
    (fun row ca => (row.headD 0 + 1) :: levRowGo ca bs row (row.headD 0 + 1))
    (List.range (bs.length + 1))
  final.getLastD 0

/-- `calculate_asd_similarity` (lines 61-98), parametrised by the external
`doublemetaphone` function `dm`.  The boost lambdas index `expected[0]` and
`actual[0]`, which raises `IndexError` in Python when either string is empty;
that is modelled by `Except.error "IndexError"`. -/
def calculate_asd_similarity (dm : String → String × String)
    (expected actual : String) : Except String ℚ :=
  let expected_variants := get_phonetic_variants expected ++ [expected]
  if expected_variants.contains actual then
    Except.ok 1
  else
    let em := dm expected
    let am := dm actual
    if em.1 ≠ "" ∧ em.1 = am.1 then
      Except.ok 0.9
    else if em.2 ≠ "" ∧ em.2 = am.2 then
      Except.ok 0.8
    else
      let lev : ℚ := (levenshtein expected actual : ℚ)
      let maxLen : ℚ := (max (max expected.length actual.length) 1 : ℕ)
      let base : ℚ := 1 - lev / maxLen
      let s1 := if ((expected.length : ℤ) - actual.length).natAbs ≤ 2
                then min 1 (base + 0.2) else base
      if expected = "" ∨ actual = "" then
        Except.error "IndexError"
      else
        let s2 := if expected.toList.headD ' ' = actual.toList.headD ' '
                  then min 1 (s1 + 0.15) else s1
        let s3 := if expected.toList.getLastD ' ' = actual.toList.getLastD ' '
                  then min 1 (s2 + 0.1) else s2
        Except.ok s3

/-- Scanning loop of `get_most_different_sound`: the first position where the
characters differ and their phoneme groups do not intersect. -/
def mostDiffGo : List (Char × Char) → Option String
  | [] => none
  | (e, a) :: rest =>
    if e = a then mostDiffGo rest
    else
      let eg := (PHONEME_GROUPS.filter (fun g => g.contains (String.mk [e]))).headD
        [String.mk [e]]
      let ag := (PHONEME_GROUPS.filter (fun g => g.contains (String.mk [a]))).headD
        [String.mk [a]]
      if eg.all (fun s => !ag.contains s) then
        some (String.mk [a] ++ "→" ++ String.mk [e])
      else
        mostDiffGo rest

/-- `get_most_different_sound` (lines 143-155): the divergent phoneme found by
`mostDiffGo` reported as `actual→expected`; default: the first two letters of
`expected`. -/
def get_most_different_sound (expected actual : String) : String :=
  match mostDiffGo (expected.toList.zip actual.toList) with
  | some d => d
  | none => String.mk (expected.toList.take 2)

/-- The record returned by `analyze_pronunciation`. -/
structure PronResult where
  is_correct : Bool
  similarity_score : ℚ
  feedback : String
  phonetic_similarity : ℚ
  special_case : Option String
deriving DecidableEq

/-- `analyze_pronunciation` (lines 101-140), parametrised by the external
`doublemetaphone` function `dm`. -/
def analyze_pronunciation (dm : String → String × String)
    (expected actual : String) : Except String PronResult :=
  let expected_clean := String.mk
    ((expected.toList.map pyToLower).filter (fun c => 'a' ≤ c && c ≤ 'z'))
  let actual_clean := normalize_disfluencies actual
  if is_echolalic actual then
    Except.ok
      { is_correct := true
        similarity_score := 0.95
        feedback := "Good repeating! Now try saying it just once."
        phonetic_similarity := 0.95
        special_case := some "echolalia" }
  else
    match calculate_asd_similarity dm expected_clean actual_clean with
    | Except.error e => Except.error e
    | Except.ok similarity =>
      let is_correct : Bool := similarity ≥ 0.7
      let feedback :=
        if is_correct then
          if similarity ≥ 0.9 then "Perfect! You said it just right!"
          else
            let diff := get_most_different_sound expected_clean actual_clean
            "Great try! Very close - the \x27" ++ diff ++
              "\x27 sound was almost perfect!"
        else
          let diff := get_most_different_sound expected_clean actual_clean
          "Let\x27s practice together: \x27" ++ expected ++
            "\x27. Focus on the \x27" ++ diff ++ "\x27 sound."
      Except.ok
        { is_correct := is_correct
          similarity_score := similarity
          feedback := feedback
          phonetic_similarity := similarity
          special_case := if is_echolalic actual then some "echolalia" else none }

/-! ## `app/services/performance_updater.py` -/

/-- A `SessionActivity` row as seen by the aggregation and profile queries:
only `response_type` and `is_correct` are read. -/
structure Activity where
  response_type : String
  is_correct : Bool
deriving DecidableEq

/-- The fields of a `ChildPerformance` row written by
`update_performance_metrics`. -/
structure PerfMetrics where
  overall_score : ℚ
  verbal_attempts : ℕ
  verbal_success : ℕ
  selection_attempts : ℕ
  selection_success : ℕ
deriving DecidableEq

/-- `update_performance_metrics` (lines 8-59 of `performance_updater.py`)
restricted to its pure computation: the list `activities` is the result of
the join query for the child and category, and the returned record is what
is upserted into the single `ChildPerformance` row. -/
def update_performance_metrics (activities : List Activity) : PerfMetrics :=
  let verbal_attempts := activities.countP (fun a => a.response_type = "verbal")
  let verbal_success :=
    activities.countP (fun a => a.response_type = "verbal" ∧ a.is_correct)
  let selection_attempts := activities.countP (fun a => a.response_type = "select")
  let selection_success :=
    activities.countP (fun a => a.response_type = "select" ∧ a.is_correct)
  let total_attempts := verbal_attempts + selection_attempts
  let overall_score : ℚ :=
    if total_attempts > 0 then
      (verbal_success * 0.7 + selection_success * 0.3) /
        (verbal_attempts * 0.7 + selection_attempts * 0.3)
    else 0.0
  { overall_score := overall_score
    verbal_attempts := verbal_attempts
    verbal_success := verbal_success
    selection_attempts := selection_attempts
    selection_success := selection_success }

/-- The per-modality success ratio the specification speaks about:
successes over attempts, 0 when there are no attempts. -/
def successRatio (succ att : ℕ) : ℚ :=
  if att = 0 then 0 else (succ : ℚ) / att

/-! ## `app/services/personalization.py`: `analyze_child_profile` -/

/-- A `ChildPerformance` row as read by the personalization engine. -/
structure ChildPerformance where
  category_id : ℕ
  overall_score : ℚ
deriving DecidableEq

/-- The profile dictionary built by `analyze_child_profile`.  The
`communication_style` entry is always the empty dict and is omitted. -/
structure Profile where
  strengths : List String
  challenges : List String
  recommended_level : String
  preferred_modality : Option String
deriving DecidableEq

/-- The count of verbal attempts accumulated by the activity loop of
`analyze_child_profile` (lines 62-70). -/
def profileVerbalTotal (activities : List Activity) : ℕ :=
  activities.countP (fun a => a.response_type = "verbal")

/-- The count of correct verbal attempts accumulated by the activity loop of
`analyze_child_profile`. -/
def profileVerbalSuccess (activities : List Activity) : ℕ :=
  activities.countP (fun a => a.response_type = "verbal" ∧ a.is_correct)

/-- The count of selection attempts accumulated by the activity loop of
`analyze_child_profile`: it counts `response_type == 'nonverbal'`. -/
def profileSelectionTotal (activities : List Activity) : ℕ :=
  activities.countP (fun a => a.response_type = "nonverbal")

/-- The count of correct selection attempts accumulated by the activity loop
of `analyze_child_profile`. -/
def profileSelectionSuccess (activities : List Activity) : ℕ :=
  activities.countP (fun a => a.response_type = "nonverbal" ∧ a.is_correct)

/-- `analyze_child_profile` (lines 20-85): strengths/challenges from the
performance rows, preferred modality from the per-modality success rates,
recommended level from the mean overall score.  Category ids are rendered
with `toString` where Python applies `str`. -/
def analyze_child_profile (performances : List ChildPerformance)
    (activities : List Activity) : Profile :=
  if performances = [] ∧ activities = [] then
    { strengths := [], challenges := [], recommended_level := "easy"
      preferred_modality := none }
  else
    let strengths := (performances.filter (fun p => p.overall_score ≥ 0.7)).map
      (fun p => toString p.category_id)
    let challenges := (performances.filter
      (fun p => ¬ p.overall_score ≥ 0.7 ∧ p.overall_score ≤ 0.3)).map
      (fun p => toString p.category_id)
    let verbal_total := profileVerbalTotal activities
    let verbal_success := profileVerbalSuccess activities
    let selection_total := profileSelectionTotal activities
    let selection_success := profileSelectionSuccess activities
    let preferred_modality : Option String :=
      if verbal_total > 0 ∧ selection_total > 0 then
        if (verbal_success : ℚ) / verbal_total > (selection_success : ℚ) / selection_total
        then some "verbal" else some "nonverbal"
      else none
    let avg_score : ℚ :=
      if performances ≠ [] then
        (performances.map (fun p => p.overall_score)).sum / performances.length
      else 0
    let recommended_level :=
      if avg_score > 0.75 then "hard"
      else if avg_score > 0.5 then "medium"
      else "easy"
    { strengths := strengths, challenges := challenges
      recommended_level := recommended_level
      preferred_modality := preferred_modality }

/-! ## `app/services/personalization.py`: learning path -/

/-- An `ActivityCategory` row. -/
structure ActivityCategory where
  id : ℕ
  name : String
  difficulty_level : Option String
deriving DecidableEq

/-- The sort key of the `case` expression ordering categories by base
difficulty (easy 1, medium 2, hard 3, else 4). -/
def diffKey (c : ActivityCategory) : ℕ :=
  if c.difficulty_level = some "easy" then 1
  else if c.difficulty_level = some "medium" then 2
  else if c.difficulty_level = some "hard" then 3
  else 4

/-- Insert `x` after every already-placed element `y` with `le y x`:
the insertion step of a stable ascending sort. -/
def insertSorted (le : α → α → Bool) (x : α) : List α → List α
  | [] => [x]
  | y :: ys => if le y x then y :: insertSorted le x ys else x :: y :: ys

/-- Stable ascending sort (models Python `list.sort(key=...)` / SQL
`ORDER BY`; ties keep the original order). -/
def stableSortBy (le : α → α → Bool) (l : List α) : List α :=
  l.foldl (fun acc x => insertSorted le x acc) []

/-- A learning-path item as the Python dicts built by
`generate_learning_path` / `get_current_learning_path`: each field models a
dict key that may be absent (`none`). -/
structure PItem where
  category_id : ℕ
  target_score : ℚ
  reason : Option String := none
  support : Option String := none
  priority : Option ℤ := none
  status : Option String := none
  current_priority : Option ℤ := none
  current_score : Option ℚ := none
deriving DecidableEq

/-- A stored `LearningPath` row (`app/models/LearningPath.py`), the fields
written by `save_learning_path`; timestamps are not modelled. -/
structure LearningPathRow where
  category_id : ℕ
  target_score : ℚ
  current_priority : ℤ
  status : String
deriving DecidableEq

/-- The two shapes `save_learning_path` accepts: a plain list of item dicts,
or the dict with a `paths` key returned by `get_current_learning_path` (whose
other keys `child_id`, `created_at`, `updated_at` are not modelled beyond
their existence, see `update_learning_path`). -/
inductive PathData where
  | plist (items : List PItem)
  | pdict (child_id : ℕ) (paths : List PItem)
deriving DecidableEq

/-- `generate_learning_path` (lines 87-136): strengths (target 0.9), then
new categories at the recommended level (target 0.7), then challenges
(target 0.5), over the categories sorted by base difficulty.  Note that none
of the emitted dicts carries a `priority` key. -/
def generate_learning_path (performances : List ChildPerformance)
    (activities : List Activity) (categories : List ActivityCategory) :
    List PItem :=
  let profile := analyze_child_profile performances activities
  let cats := stableSortBy (fun a b => diffKey a ≤ diffKey b) categories
  let strengthItems := (cats.filter
      (fun c => profile.strengths.contains (toString c.id))).map
    (fun c => { category_id := c.id, reason := some "strength",
                target_score := 0.9 })
  let newItems := (cats.filter (fun c =>
      ¬ (profile.strengths ++ profile.challenges).contains (toString c.id) ∧
      c.difficulty_level = some profile.recommended_level)).map
    (fun c => { category_id := c.id, reason := some "new_at_level",
                target_score := 0.7 })
  let challengeItems := (cats.filter
      (fun c => profile.challenges.contains (toString c.id))).map
    (fun c => { category_id := c.id, reason := some "challenge",
                target_score := 0.5,
                support := some (if profile.preferred_modality = some "select"
                  then "visual_aids" else "verbal_prompts") })
  strengthItems ++ newItems ++ challengeItems

/-- `save_learning_path` (lines 406-434): delete every stored row for the
child, then insert one row per item; the result is the child's new stored
row set.  `current_priority` is `item.get('priority', 0)` and `status` is
`item.get('status', 'pending')`.  (The `ValueError` branch for a malformed
payload is unreachable for the two shapes of `PathData`.) -/
def save_learning_path (path_data : PathData) : List LearningPathRow :=
  let items := match path_data with
    | .pdict _ paths => paths
    | .plist l => l
  items.map (fun item =>
    { category_id := item.category_id
      target_score := item.target_score
      current_priority := item.priority.getD 0
      status := item.status.getD "pending" })

/-- `get_current_learning_path` (lines 372-404): with no stored rows, fall
back to a freshly generated path (a plain list); otherwise a dict holding
the stored rows ordered by `current_priority`, each with its current
performance score attached. -/
def get_current_learning_path (stored : List LearningPathRow) (child_id : ℕ)
    (performances : List ChildPerformance) (activities : List Activity)
    (categories : List ActivityCategory) : PathData :=
  if stored = [] then
    .plist (generate_learning_path performances activities categories)
  else
    let sorted := stableSortBy
      (fun a b => a.current_priority ≤ b.current_priority) stored
    .pdict child_id (sorted.map (fun item =>
      { category_id := item.category_id
        target_score := item.target_score
        current_priority := some item.current_priority
        status := some item.status
        current_score := some
          (match performances.find? (fun p => p.category_id = item.category_id) with
           | some perf => perf.overall_score
           | none => 0.0) }))

/-- `update_learning_path` (lines 345-370).  `for item in current_path`
iterates over the *keys* of the dict returned by
`get_current_learning_path` when a stored path exists (the first key is
`child_id`); the loop body then evaluates `item['category_id']` on that
string inside the generator passed to `next`, which raises `TypeError` as
soon as the generator tests the first performance row — so the dict case
only survives when the child has no performance rows, and then performs no
adjustment at all.  The returned pair is (rows written by
`save_learning_path`, the returned `current_path` value). -/
def update_learning_path (stored : List LearningPathRow) (child_id : ℕ)
    (performances : List ChildPerformance) (activities : List Activity)
    (categories : List ActivityCategory) :
    Except String (List LearningPathRow × PathData) :=
  let current := get_current_learning_path stored child_id performances
    activities categories
  match current with
  | .plist items =>
    let adjusted := items.map (fun item =>
      match performances.find?
          (fun p => toString p.category_id = toString item.category_id) with
      | some perf =>
        if perf.overall_score > item.target_score * 0.9 then
          { item with target_score := min 1.0 (item.target_score + 0.1) }
        else if perf.overall_score < item.target_score * 0.5 then
          { item with target_score := max 0.3 (item.target_score - 0.1) }
        else item
      | none => item)
    Except.ok (save_learning_path (.plist adjusted), .plist adjusted)
  | .pdict cid paths =>
    if performances ≠ [] then
      Except.error "TypeError: string indices must be integers"
    else
      Except.ok (save_learning_path (.pdict cid paths), .pdict cid paths)

/-! ## `app/services/personalization.py`: `select_next_activity` -/

/-- An `ActivityItem` row as read by `select_next_activity`. -/
structure ActivityItem where
  id : ℕ
  difficulty_level : Option String
  audio_url : Option String
  image_url : Option String
deriving DecidableEq

/-- Python `a or b` on optional strings: `a` unless it is `None` or empty. -/
def pyOr (a b : Option String) : Option String :=
  match a with
  | some s => if s = "" then b else some s
  | none => b

/-- Lexicographic (code-point) comparison of character lists, as Python
compares strings. -/
def charListLe : List Char → List Char → Bool
  | [], _ => true
  | _ :: _, [] => false
  | a :: as, b :: bs => if a = b then charListLe as bs else decide (a < b)

/-- Ordering of the sort keys built from optional difficulty strings.
Python would raise `TypeError` when comparing `None` with a `str`; no input
considered below mixes the two, so `none` is (arbitrarily) placed first. -/
def optStrLe (a b : Option String) : Bool :=
  match a, b with
  | none, _ => true
  | some _, none => false
  | some x, some y => charListLe x.toList y.toList

/-- Ordering of the `(asset is not None, difficulty_level)` tuples used by
the preferred-modality sort (`False < True` on booleans, then the string
comparison). -/
def modalityKeyLe (a b : Bool × Option String) : Bool :=
  if a.1 = b.1 then optStrLe a.2 b.2 else (!a.1 && b.1)

/-- `select_next_activity` (lines 155-226): difficulty-band candidate
filtering with fallbacks, exclusion of items already used in the session
(waived when it would empty the set), then a preferred-modality sort.
`category_difficulty` is the session category's difficulty,
`recent_ids` the item ids already attempted in this session. -/
def select_next_activity (child_perf : Option ChildPerformance)
    (category_difficulty : Option String) (items : List ActivityItem)
    (recent_ids : List ℕ) (performances : List ChildPerformance)
    (activities : List Activity) : Option ActivityItem :=
  if items = [] then none
  else
    let easiest : Option ActivityItem :=
      (stableSortBy (fun a b =>
        optStrLe (pyOr a.difficulty_level category_difficulty)
          (pyOr b.difficulty_level category_difficulty)) items).head?
    match child_perf with
    | none => easiest
    | some perf =>
      if perf.overall_score < 0.1 then easiest
      else
      let candidates :=
        if perf.overall_score < 0.4 then
          let cands := items.filter (fun i =>
            i.difficulty_level = some "easy" ∨
            (i.difficulty_level = none ∧ category_difficulty = some "easy"))
          if cands = [] then items.take 3 else cands
        else if perf.overall_score > 0.8 then
          let cands := items.filter (fun i =>
            i.difficulty_level = some "hard" ∨
            (i.difficulty_level = none ∧ category_difficulty = some "hard"))
          if cands = [] then items.drop (items.length - 3) else cands
        else
          let cands := items.filter (fun i =>
            i.difficulty_level = some "medium" ∨
            (i.difficulty_level = none ∧ category_difficulty = some "medium"))
          if cands = [] then
            (if items.length > 6 then (items.drop 3).take (items.length - 6)
             else items)
          else cands
      let filtered := candidates.filter (fun i => ¬ recent_ids.contains i.id)
      let candidates := if filtered = [] then candidates else filtered
      let profile := analyze_child_profile performances activities
      let final :=
        match profile.preferred_modality with
        | some m =>
          if m = "verbal" then
            stableSortBy (fun a b : ActivityItem => modalityKeyLe
              (a.audio_url.isSome, a.difficulty_level)
              (b.audio_url.isSome, b.difficulty_level)) candidates
          else
            stableSortBy (fun a b : ActivityItem => modalityKeyLe
              (a.image_url.isSome, a.difficulty_level)
              (b.image_url.isSome, b.difficulty_level)) candidates
        | none => candidates
      final.head?

/-! ## `app/services/progress_tracker.py`: `_calculate_trend`

Dates are modelled as days since 1970-01-01 (a Thursday).  pandas
`resample('W')` buckets by weeks ending on Sunday and fills the gaps between
the first and the last occupied bucket, so the number of weekly buckets is
`lastWeek - firstWeek + 1` and the first/last bucket means are the means
over the earliest/latest occupied week. -/

/-- One row of the DataFrame built by `_get_timeframe_trend`: a session's
date, mean pronunciation score and category name. -/
structure TrendRow where
  date : ℕ
  score : ℚ
  category : String
deriving DecidableEq

/-- The index of the Sunday-ending week containing day `d`
(day 3 = 1970-01-04 was the first Sunday). -/
def weekIndex (d : ℕ) : ℕ := (d + 3) / 7

/-- The earliest occupied weekly bucket of the data (0 for no data). -/
def trendMinWeek (data : List TrendRow) : ℕ :=
  match data.map (fun r => weekIndex r.date) with
  | [] => 0
  | w :: ws => ws.foldl min w

/-- The latest occupied weekly bucket of the data (0 for no data). -/
def trendMaxWeek (data : List TrendRow) : ℕ :=
  match data.map (fun r => weekIndex r.date) with
  | [] => 0
  | w :: ws => ws.foldl max w

/-- `len(weekly)` after `resample('W')`: the number of weekly buckets
spanned from the first to the last occupied week. -/
def trendNumWeeks (data : List TrendRow) : ℕ :=
  if data = [] then 0 else trendMaxWeek data - trendMinWeek data + 1

/-- The mean score of the rows falling in weekly bucket `w`. -/
def weeklyMean (data : List TrendRow) (w : ℕ) : ℚ :=
  let scores := (data.filter (fun r => weekIndex r.date = w)).map
    (fun r => r.score)
  scores.sum / scores.length

/-- The dict returned by `_calculate_trend`; `current_score` and
`starting_score` are only present on the sloped branch. -/
structure TrendResult where
  trend : String
  rate : ℚ
  current_score : Option ℚ := none
  starting_score : Option ℚ := none
deriving DecidableEq

/-- `_calculate_trend` (lines 55-76 of `progress_tracker.py`): `"no data"`
for an empty frame; otherwise resample to weekly means and, with more than
one weekly bucket, label the sign of
`(last mean - first mean) / number of buckets`; with a single bucket,
`"insufficient data"`. -/
def calculate_trend (data : List TrendRow) : TrendResult :=
  if data = [] then { trend := "no data", rate := 0 }
  else if trendNumWeeks data > 1 then
    let first := weeklyMean data (trendMinWeek data)
    let last := weeklyMean data (trendMaxWeek data)
    let slope := (last - first) / (trendNumWeeks data : ℚ)
    let trend := if slope > 0 then "improving"
      else if slope < 0 then "declining" else "stable"
    { trend := trend, rate := |slope|, current_score := some last
      starting_score := some first }
  else { trend := "insufficient data", rate := 0 }

/-! ## `app/services/recommender.py` and
`app/ml/recommendation_model.py` -/

/-- A `ChildPerformance` row as read by the recommender, with the joined
category's name (`none` when the join found nothing). -/
structure RecPerformance where
  category : Option String
  overall_score : ℚ
  verbal_attempts : ℕ
  verbal_success : ℕ
  selection_attempts : ℕ
  selection_success : ℕ
deriving DecidableEq

/-- An `ActivityItem` as read by the recommender. -/
structure RecItem where
  name : String
  difficulty_level : Option String
deriving DecidableEq

/-- An `ActivityCategory` with its items, as read by the recommender. -/
structure RecCategory where
  name : String
  difficulty_level : Option String
  items : List RecItem
deriving DecidableEq

/-- The feature dict built by `_prepare_ml_input`. -/
structure ChildData where
  verbal_accuracy : ℚ
  selection_accuracy : ℚ
  category_difficulty : ℚ
  time_spent : ℚ
  success_rate : ℚ
  previous_attempts : ℚ
deriving DecidableEq

/-- `_get_avg_difficulty` (lines 68-85 of `recommender.py`): mean of the
difficulty scores (easy 1, medium 2, hard 3, default 1) of the categories of
the child's sessions; 1.0 with no sessions. -/
def get_avg_difficulty (categories : List RecCategory) : ℚ :=
  if categories = [] then 1.0
  else (categories.map (fun c =>
    if c.difficulty_level = some "easy" then (1 : ℚ)
    else if c.difficulty_level = some "medium" then 2
    else if c.difficulty_level = some "hard" then 3
    else 1)).sum / categories.length

/-- `_get_average_session_time` (lines 87-103): mean duration in minutes of
the sessions with an end time, given as (start, end) in seconds. -/
def get_average_session_time (sessions : List (ℚ × ℚ)) : ℚ :=
  if sessions = [] then 0.0
  else (sessions.map (fun s => s.2 - s.1)).sum / sessions.length / 60

/-- `_prepare_ml_input` (lines 40-66). -/
def prepare_ml_input (performances : List RecPerformance)
    (sessionCategories : List RecCategory) (sessions : List (ℚ × ℚ)) :
    ChildData :=
  let total_verbal := (performances.map (fun p => p.verbal_attempts)).sum
  let verbal_accuracy : ℚ :=
    if total_verbal > 0 then
      ((performances.map (fun p => p.verbal_success)).sum : ℚ) / total_verbal
    else 0
  let total_selection := (performances.map (fun p => p.selection_attempts)).sum
  let selection_accuracy : ℚ :=
    if total_selection > 0 then
      ((performances.map (fun p => p.selection_success)).sum : ℚ) /
        total_selection
    else 0
  { verbal_accuracy := verbal_accuracy
    selection_accuracy := selection_accuracy
    category_difficulty := get_avg_difficulty sessionCategories
    time_spent := get_average_session_time sessions
    success_rate :=
      if performances ≠ [] then
        (performances.map (fun p => p.overall_score)).sum / performances.length
      else 0
    previous_attempts := (total_verbal + total_selection : ℕ) }

/-- `_get_confidence_score` (lines 105-112):
`0.6 · verbal_accuracy + 0.4 · selection_accuracy`. -/
def get_confidence_score (cd : ChildData) : ℚ :=
  cd.verbal_accuracy * 0.6 + cd.selection_accuracy * 0.4

/-- `_get_recommended_difficulty` (lines 31-38). -/
def get_recommended_difficulty (c : RecCategory) : String :=
  if c.difficulty_level = some "easy" then "medium"
  else if c.difficulty_level = some "medium" then "hard"
  else "hard"

/-- The dict returned by `_generate_progress_report`. -/
structure ProgressReport where
  average_score : ℚ
  strongest_category : String
  weakest_category : String
deriving DecidableEq

/-- The `progress_tracking` entry: a report dict for a known child, a plain
string for a new one. -/
inductive ProgressTracking where
  | report (r : ProgressReport)
  | note (s : String)
deriving DecidableEq

/-- Python `max(l, key=f)`: the first element attaining the maximum. -/
def firstMaxBy (f : α → ℚ) : List α → Option α
  | [] => none
  | x :: xs => some (xs.foldl (fun best y => if f y > f best then y else best) x)

/-- Python `min(l, key=f)`: the first element attaining the minimum. -/
def firstMinBy (f : α → ℚ) : List α → Option α
  | [] => none
  | x :: xs => some (xs.foldl (fun best y => if f y < f best then y else best) x)

/-- The `.category.name` access on a performance row: `category_id` is a
nullable column, so a row whose joined category is absent raises
`AttributeError` in Python. -/
def pyCategoryName (p : RecPerformance) : Except String String :=
  match p.category with
  | some n => Except.ok n
  | none => Except.error "AttributeError: NoneType has no attribute name"

/-- `_generate_progress_report` (lines 187-197): mean score plus the names of
the first best and first worst categories; the unguarded
`max(...).category.name` / `min(...).category.name` accesses raise
`AttributeError` when that row's joined category is absent. -/
def generate_progress_report (performances : List RecPerformance) :
    Except String ProgressReport :=
  let average_score : ℚ :=
    if performances ≠ [] then
      (performances.map (fun p => p.overall_score)).sum / performances.length
    else 0
  match (match firstMaxBy (fun p => p.overall_score) performances with
         | some p => pyCategoryName p
         | none => Except.ok "N/A") with
  | Except.error e => Except.error e
  | Except.ok best =>
    match (match firstMinBy (fun p => p.overall_score) performances with
           | some p => pyCategoryName p
           | none => Except.ok "N/A") with
    | Except.error e => Except.error e
    | Except.ok worst =>
      Except.ok
        { average_score := average_score
          strongest_category := best
          weakest_category := worst }

/-- `_generate_encouragement` (lines 199-203). -/
def generate_encouragement (strong : List String) : String :=
  if strong = [] then "Keep practicing! You\x27re making progress."
  else "Great work on " ++ String.intercalate ", " (strong.take 3) ++
    "! Let\x27s build on this success."

/-- The payload returned by `get_recommendations`; the last three fields are
only present when the model prediction succeeded. -/
structure RecPayload where
  practice_more : List String
  next_activities : List (String × List String)
  progress_tracking : ProgressTracking
  encouragement : String
  ml_recommendation : Option String := none
  confidence_score : Option ℚ := none
  model_version : Option String := none
deriving DecidableEq

/-- `_get_initial_recommendations` (lines 141-161): the fixed starter
payload for a child with no performance rows, built from the first three
easy catalog categories and their first three items. -/
def get_initial_recommendations (catalog : List RecCategory) : RecPayload :=
  let basic := (catalog.filter (fun c => c.difficulty_level = some "easy")).take 3
  { practice_more := []
    next_activities := basic.map (fun c =>
      (c.name, (c.items.take 3).map (fun i => i.name)))
    progress_tracking := .note "New learner - starting with basic activities"
    encouragement := "Let\x27s get started with some fun activities!" }

/-- `_suggest_next_activities` (lines 163-185): for each weak category name
found in the catalog, up to five items at the recommended difficulty. -/
def suggest_next_activities (catalog : List RecCategory)
    (weak : List String) : List (String × List String) :=
  (weak.take 3).filterMap (fun name =>
    match catalog.find? (fun c => c.name = name) with
    | some c => some (c.name,
        ((c.items.filter (fun i =>
          i.difficulty_level = some (get_recommended_difficulty c))).take 5).map
          (fun i => i.name))
    | none => none)

/-- `_get_rule_based_recommendations` (lines 114-139).  The comprehensions
for `weak`/`strong` skip rows with no joined category (`and perf.category`),
but the progress report does not, so its `AttributeError` escapes here. -/
def get_rule_based_recommendations (performances : List RecPerformance)
    (catalog : List RecCategory) : Except String RecPayload :=
  if performances = [] then Except.ok (get_initial_recommendations catalog)
  else
    let weak := ((performances.filter (fun p =>
        p.overall_score < 0.6 ∧ p.category.isSome)).map
      (fun p => p.category.getD "")).take 3
    let strong := ((performances.filter (fun p =>
        p.overall_score ≥ 0.8 ∧ p.category.isSome)).map
      (fun p => p.category.getD "")).take 2
    match generate_progress_report performances with
    | Except.error e => Except.error e
    | Except.ok report =>
      Except.ok
        { practice_more := weak
          next_activities := suggest_next_activities catalog weak
          progress_tracking := .report report
          encouragement := generate_encouragement strong }

/-- `Recommender.get_recommendations` (lines 13-29), parametrised by the
injected model prediction `predict` (which may fail, modelling any exception
out of the `try` block); a prediction failure is caught and answered with
the rule-based outcome alone, while an exception raised by the rule-based
part itself (the nullable-category `AttributeError`) is uncaught on both
paths. -/
def get_recommendations (predict : ChildData → Except String String)
    (performances : List RecPerformance) (catalog : List RecCategory)
    (sessionCategories : List RecCategory) (sessions : List (ℚ × ℚ)) :
    Except String RecPayload :=
  let child_data := prepare_ml_input performances sessionCategories sessions
  match predict child_data with
  | Except.error _ => get_rule_based_recommendations performances catalog
  | Except.ok ml =>
    let confidence := get_confidence_score child_data
    match get_rule_based_recommendations performances catalog with
    | Except.error e => Except.error e
    | Except.ok rule_based =>
      Except.ok
        { rule_based with
          ml_recommendation := some ml
          confidence_score := some confidence
          model_version := some "1.0" }

/-- Sanity check of the normaliser on the space-joined variants the
specification names: a space-joined stutter and a repeated word collapse. -/
theorem normalize_sanity :
    normalize_disfluencies "t tomato" = "tomato" ∧
    normalize_disfluencies "tomato tomato" = "tomato" ∧
    normalize_disfluencies "" = "" := by decide

/-! # Helper lemmas -/

/-- Algebraic form of the aggregator's score: the ratio of weighted success
sums equals the weighted average of the success ratios with weights
proportional to `0.7·va` and `0.3·sa`. -/
theorem weighted_average_eq (va vs sa ss : ℕ) (hv : vs ≤ va) (hs : ss ≤ sa) :
    (if va + sa > 0 then
        ((vs : ℚ) * 0.7 + (ss : ℚ) * 0.3) /
          ((va : ℚ) * 0.7 + (sa : ℚ) * 0.3)
      else 0.0) =
      if va + sa = 0 then 0
      else
        (0.7 * (va : ℚ) * successRatio vs va +
            0.3 * (sa : ℚ) * successRatio ss sa) /
          (0.7 * (va : ℚ) + 0.3 * (sa : ℚ)) := by
  by_cases h : va + sa = 0
  · have hva : va = 0 := by omega
    have hsa : sa = 0 := by omega
    subst hva
    subst hsa
    norm_num
  · rw [if_pos (by omega : va + sa > 0), if_neg h]
    unfold successRatio
    rcases Nat.eq_zero_or_pos va with hva | hva
    · have hvs : vs = 0 := by omega
      have hsa : sa ≠ 0 := by omega
      rw [if_pos hva, if_neg hsa]
      subst hva
      subst hvs
      have h2 : (sa : ℚ) ≠ 0 := Nat.cast_ne_zero.mpr hsa
      field_simp
      ring
    · rcases Nat.eq_zero_or_pos sa with hsa | hsa
      · have hss : ss = 0 := by omega
        rw [if_neg (by omega), if_pos hsa]
        subst hsa
        subst hss
        have h1 : (va : ℚ) ≠ 0 := Nat.cast_ne_zero.mpr (by omega)
        field_simp
        ring
      · rw [if_neg (by omega), if_neg (by omega)]
        have h1 : (va : ℚ) ≠ 0 := Nat.cast_ne_zero.mpr (by omega)
        have h2 : (sa : ℚ) ≠ 0 := Nat.cast_ne_zero.mpr (by omega)
        field_simp
        ring

/-- `pyToLower` maps no character into or out of the whitespace class. -/
theorem isPyWS_pyToLower (c : Char) : isPyWS (pyToLower c) = isPyWS c := by
  by_cases h1 : c = 'A'
  · subst h1; decide
  by_cases h2 : c = 'B'
  · subst h2; decide
  by_cases h3 : c = 'C'
  · subst h3; decide
  by_cases h4 : c = 'D'
  · subst h4; decide
  by_cases h5 : c = 'E'
  · subst h5; decide
  by_cases h6 : c = 'F'
  · subst h6; decide
  by_cases h7 : c = 'G'
  · subst h7; decide
  by_cases h8 : c = 'H'
  · subst h8; decide
  by_cases h9 : c = 'I'
  · subst h9; decide
  by_cases h10 : c = 'J'
  · subst h10; decide
  by_cases h11 : c = 'K'
  · subst h11; decide
  by_cases h12 : c = 'L'
  · subst h12; decide
  by_cases h13 : c = 'M'
  · subst h13; decide
  by_cases h14 : c = 'N'
  · subst h14; decide
  by_cases h15 : c = 'O'
  · subst h15; decide
  by_cases h16 : c = 'P'
  · subst h16; decide
  by_cases h17 : c = 'Q'
  · subst h17; decide
  by_cases h18 : c = 'R'
  · subst h18; decide
  by_cases h19 : c = 'S'
  · subst h19; decide
  by_cases h20 : c = 'T'
  · subst h20; decide
  by_cases h21 : c = 'U'
  · subst h21; decide
  by_cases h22 : c = 'V'
  · subst h22; decide
  by_cases h23 : c = 'W'
  · subst h23; decide
  by_cases h24 : c = 'X'
  · subst h24; decide
  by_cases h25 : c = 'Y'
  · subst h25; decide
  by_cases h26 : c = 'Z'
  · subst h26; decide
  have hc : pyToLower c = c := by
    unfold pyToLower
    rw [if_neg h1, if_neg h2, if_neg h3, if_neg h4, if_neg h5, if_neg h6, if_neg h7, if_neg h8, if_neg h9, if_neg h10, if_neg h11, if_neg h12, if_neg h13, if_neg h14, if_neg h15, if_neg h16, if_neg h17, if_neg h18, if_neg h19, if_neg h20, if_neg h21, if_neg h22, if_neg h23, if_neg h24, if_neg h25, if_neg h26]
  rw [hc]

/-- Unfolding equation of `wsChunks` on a cons cell. -/
theorem wsChunks_cons (c : Char) (cs : List Char) :
    wsChunks (c :: cs) =
      match wsChunks cs with
      | [] => [[]]
      | t :: ts => if isPyWS c then [] :: t :: ts else (c :: t) :: ts := rfl

/-- `wsChunks` always yields at least one chunk. -/
theorem wsChunks_ne_nil (cs : List Char) : wsChunks cs ≠ [] := by
  induction cs with
  | nil => simp [wsChunks]
  | cons c cs ih =>
    rw [wsChunks_cons]
    cases h : wsChunks cs with
    | nil => simp
    | cons t ts => dsimp only; split <;> simp

/-- A character map preserving the whitespace class commutes with
`wsChunks`. -/
theorem wsChunks_map (f : Char → Char) (hf : ∀ c, isPyWS (f c) = isPyWS c)
    (cs : List Char) :
    wsChunks (cs.map f) = (wsChunks cs).map (List.map f) := by
  induction cs with
  | nil => rfl
  | cons c cs ih =>
    rw [List.map_cons, wsChunks_cons, wsChunks_cons, ih]
    cases h : wsChunks cs with
    | nil => exact absurd h (wsChunks_ne_nil cs)
    | cons t ts =>
      dsimp only [List.map_cons]
      rw [hf c]
      split <;> simp

/-- A character map preserving the whitespace class commutes with
tokenisation. -/
theorem pyTokens_map (f : Char → Char) (hf : ∀ c, isPyWS (f c) = isPyWS c)
    (cs : List Char) :
    pyTokens (cs.map f) = (pyTokens cs).map (List.map f) := by
  unfold pyTokens
  rw [wsChunks_map f hf, List.filter_map]
  have hp : ((fun t : List Char => !t.isEmpty) ∘ List.map f) =
      (fun t : List Char => !t.isEmpty) := by
    funext t
    cases t <;> rfl
  rw [hp]

/-- Lowercasing commutes with `str.split()`. -/
theorem pySplit_pyLower (s : String) :
    pySplit (pyLower s) = (pySplit s).map pyLower := by
  unfold pySplit pyLower
  rw [show (String.mk (s.toList.map pyToLower)).toList =
        s.toList.map pyToLower from rfl]
  rw [pyTokens_map pyToLower isPyWS_pyToLower]
  rw [List.map_map, List.map_map]
  rfl

/-! # Claims -/

/-- Claim C1, counterexample: for one verbal success plus three failed
selection attempts the aggregator stores `7/16`, whereas the weighted
average of the success ratios with weights 0.7 and 0.3 would be `0.7`. -/
theorem C1_counterexample :
    (update_performance_metrics
      [⟨"verbal", true⟩, ⟨"select", false⟩, ⟨"select", false⟩,
       ⟨"select", false⟩]).verbal_attempts = 1 ∧
    (update_performance_metrics
      [⟨"verbal", true⟩, ⟨"select", false⟩, ⟨"select", false⟩,
       ⟨"select", false⟩]).verbal_success = 1 ∧
    (update_performance_metrics
      [⟨"verbal", true⟩, ⟨"select", false⟩, ⟨"select", false⟩,
       ⟨"select", false⟩]).selection_attempts = 3 ∧
    (update_performance_metrics
      [⟨"verbal", true⟩, ⟨"select", false⟩, ⟨"select", false⟩,
       ⟨"select", false⟩]).selection_success = 0 ∧
    (update_performance_metrics
      [⟨"verbal", true⟩, ⟨"select", false⟩, ⟨"select", false⟩,
       ⟨"select", false⟩]).overall_score ≠
      0.7 * successRatio 1 1 + 0.3 * successRatio 0 3 := by
  simp [update_performance_metrics, List.countP, List.countP.go, successRatio]
  norm_num

/-- Claim C1 (amended): the recomputed `overall_score` is the weighted
average of the per-modality success ratios with weights *proportional to*
`0.7 · verbal_attempts` and `0.3 · selection_attempts` (not the fixed
weights 0.7 and 0.3), and equals 0 when no attempts exist. -/
theorem C1_amended (activities : List Activity) :
    (update_performance_metrics activities).overall_score =
      if (update_performance_metrics activities).verbal_attempts +
          (update_performance_metrics activities).selection_attempts = 0 then 0
      else
        (0.7 * (update_performance_metrics activities).verbal_attempts *
            successRatio (update_performance_metrics activities).verbal_success
              (update_performance_metrics activities).verbal_attempts +
         0.3 * (update_performance_metrics activities).selection_attempts *
            successRatio (update_performance_metrics activities).selection_success
              (update_performance_metrics activities).selection_attempts) /
        (0.7 * (update_performance_metrics activities).verbal_attempts +
         0.3 * (update_performance_metrics activities).selection_attempts) := by
  have hv : activities.countP (fun a => a.response_type = "verbal" ∧ a.is_correct) ≤
      activities.countP (fun a => a.response_type = "verbal") :=
    List.countP_mono_left (fun a _ h => by
      simp only [decide_eq_true_eq] at *; exact h.1)
  have hs : activities.countP (fun a => a.response_type = "select" ∧ a.is_correct) ≤
      activities.countP (fun a => a.response_type = "select") :=
    List.countP_mono_left (fun a _ h => by
      simp only [decide_eq_true_eq] at *; exact h.1)
  simp only [update_performance_metrics]
  exact weighted_average_eq _ _ _ _ hv hs

/-- Claim C1 (amended), witness at one verbal success plus three failed
selection attempts. -/
theorem C1_amended_witness :
    (update_performance_metrics
      [⟨"verbal", true⟩, ⟨"select", false⟩, ⟨"select", false⟩,
       ⟨"select", false⟩]).overall_score =
      if (update_performance_metrics
            [⟨"verbal", true⟩, ⟨"select", false⟩, ⟨"select", false⟩,
             ⟨"select", false⟩]).verbal_attempts +
          (update_performance_metrics
            [⟨"verbal", true⟩, ⟨"select", false⟩, ⟨"select", false⟩,
             ⟨"select", false⟩]).selection_attempts = 0 then 0
      else
        (0.7 * (update_performance_metrics
              [⟨"verbal", true⟩, ⟨"select", false⟩, ⟨"select", false⟩,
               ⟨"select", false⟩]).verbal_attempts *
            successRatio (update_performance_metrics
              [⟨"verbal", true⟩, ⟨"select", false⟩, ⟨"select", false⟩,
               ⟨"select", false⟩]).verbal_success
              (update_performance_metrics
              [⟨"verbal", true⟩, ⟨"select", false⟩, ⟨"select", false⟩,
               ⟨"select", false⟩]).verbal_attempts +
         0.3 * (update_performance_metrics
              [⟨"verbal", true⟩, ⟨"select", false⟩, ⟨"select", false⟩,
               ⟨"select", false⟩]).selection_attempts *
            successRatio (update_performance_metrics
              [⟨"verbal", true⟩, ⟨"select", false⟩, ⟨"select", false⟩,
               ⟨"select", false⟩]).selection_success
              (update_performance_metrics
              [⟨"verbal", true⟩, ⟨"select", false⟩, ⟨"select", false⟩,
               ⟨"select", false⟩]).selection_attempts) /
        (0.7 * (update_performance_metrics
              [⟨"verbal", true⟩, ⟨"select", false⟩, ⟨"select", false⟩,
               ⟨"select", false⟩]).verbal_attempts +
         0.3 * (update_performance_metrics
              [⟨"verbal", true⟩, ⟨"select", false⟩, ⟨"select", false⟩,
               ⟨"select", false⟩]).selection_attempts) :=
  C1_amended [⟨"verbal", true⟩, ⟨"select", false⟩, ⟨"select", false⟩,
    ⟨"select", false⟩]

/-- When the transcript is not echolalic and the similarity computation
raises, `analyze_pronunciation` propagates the error. -/
theorem analyze_error_of_calc_error (dm : String → String × String)
    (expected actual msg : String)
    (hech : is_echolalic actual = false)
    (hcalc : calculate_asd_similarity dm
      (String.mk ((expected.toList.map pyToLower).filter
        (fun c => 'a' ≤ c && c ≤ 'z')))
      (normalize_disfluencies actual) = Except.error msg) :
    analyze_pronunciation dm expected actual = Except.error msg := by
  unfold analyze_pronunciation
  rw [hech]
  dsimp only
  rw [hcalc]
  rfl

/-- `calculate_asd_similarity` on the expected word `"tomato"` and an empty
transcript reaches the boost lambdas and raises `IndexError`, for every
metaphone function with `doublemetaphone("") = ("","")`. -/
theorem calc_tomato_empty_raises (dm : String → String × String)
    (hdm : dm "" = ("", "")) :
    calculate_asd_similarity dm "tomato" "" = Except.error "IndexError" := by
  unfold calculate_asd_similarity
  rw [hdm]
  dsimp only
  have hcont : ((get_phonetic_variants "tomato" ++ ["tomato"]).contains "") =
      false := by decide
  rw [hcont]
  simp only [Bool.false_eq_true, if_false]
  rw [if_neg (fun h => h.1 h.2), if_neg (fun h => h.1 h.2)]
  rw [if_pos (Or.inr trivial)]

/-- Claim C2: scoring an empty transcript against `"tomato"` does *not*
return a near-zero similarity — the boost lambda `expected[0] == actual[0]`
raises `IndexError` (for any metaphone function that maps `""` to
`("","")`, as the real library does). -/
theorem C2_empty_transcript_raises (dm : String → String × String)
    (hdm : dm "" = ("", "")) :
    analyze_pronunciation dm "tomato" "" = Except.error "IndexError" := by
  apply analyze_error_of_calc_error
  · decide
  · have h0 : String.mk ((("tomato" : String).toList.map pyToLower).filter
        (fun c => 'a' ≤ c && c ≤ 'z')) = "tomato" := by decide
    have h1 : normalize_disfluencies "" = "" := by decide
    rw [h0, h1]
    exact calc_tomato_empty_raises dm hdm

/-- Claim C2, witness: a metaphone function mapping everything to
`("","")`. -/
theorem C2_witness :
    analyze_pronunciation (fun _ => ("", "")) "tomato" "" =
      Except.error "IndexError" :=
  C2_empty_transcript_raises (fun _ => ("", "")) rfl

/-- On the normalised pair `("tomato", "tttomato")` the similarity is 0.9 on
a primary metaphone match, 0.8 on a secondary-only match, and otherwise 1
via the boosted edit-distance path — whatever the metaphone function. -/
theorem calc_tomato_stutter (dm : String → String × String) :
    calculate_asd_similarity dm "tomato" "tttomato" = Except.ok 0.9 ∨
    calculate_asd_similarity dm "tomato" "tttomato" = Except.ok 0.8 ∨
    calculate_asd_similarity dm "tomato" "tttomato" = Except.ok 1 := by
  unfold calculate_asd_similarity
  dsimp only
  have hcont :
      ((get_phonetic_variants "tomato" ++ ["tomato"]).contains "tttomato") =
      false := by decide
  rw [hcont]
  simp only [Bool.false_eq_true, if_false]
  by_cases hp : (dm "tomato").1 ≠ "" ∧ (dm "tomato").1 = (dm "tttomato").1
  · rw [if_pos hp]
    exact Or.inl rfl
  · rw [if_neg hp]
    by_cases hq : (dm "tomato").2 ≠ "" ∧ (dm "tomato").2 = (dm "tttomato").2
    · rw [if_pos hq]
      exact Or.inr (Or.inl rfl)
    · rw [if_neg hq]
      refine Or.inr (Or.inr ?_)
      have hlev : levenshtein "tomato" "tttomato" = 2 := by decide
      have hmax : (("tomato" : String).length ⊔
          ("tttomato" : String).length ⊔ 1) = 8 := by decide
      have c1 : (((("tomato" : String).length : ℤ)) -
          ((("tttomato" : String).length : ℤ))).natAbs ≤ 2 := by decide
      have c2 : ("tomato" : String).toList.headD ' ' =
          ("tttomato" : String).toList.headD ' ' := by decide
      have c3 : ("tomato" : String).toList.getLastD ' ' =
          ("tttomato" : String).toList.getLastD ' ' := by decide
      rw [hlev, hmax]
      rw [if_neg (by decide :
        ¬(("tomato" : String) = "" ∨ ("tttomato" : String) = ""))]
      simp only [if_pos c1, if_pos c2, if_pos c3]
      norm_num [min_def]

/-- Claim C3, counterexample: the normaliser does *not* turn
`"t-t-tomato"` into `"tomato"`; the hyphens are stripped before the
stutter-collapsing regex runs, leaving `"tttomato"`. -/
theorem C3_counterexample :
    normalize_disfluencies "t-t-tomato" ≠ "tomato" ∧
    normalize_disfluencies "t-t-tomato" = "tttomato" := by decide

/-- Claim C3 (amended): `score("tomato", "t-t-tomato")` normalises the
transcript to `"tttomato"`, and is judged correct with similarity 0.9 on a
primary metaphone match (the real library's behaviour), 0.8 on a
secondary-only match, and 1.0 otherwise via the boosted edit-distance
path. -/
theorem C3_amended (dm : String → String × String) :
    normalize_disfluencies "t-t-tomato" = "tttomato" ∧
    ∃ r, analyze_pronunciation dm "tomato" "t-t-tomato" = Except.ok r ∧
      r.is_correct = true ∧
      (r.similarity_score = 0.9 ∨ r.similarity_score = 0.8 ∨
        r.similarity_score = 1) := by
  refine ⟨by decide, ?_⟩
  have hech : is_echolalic "t-t-tomato" = false := by decide
  have h0 : String.mk ((("tomato" : String).toList.map pyToLower).filter
      (fun c => 'a' ≤ c && c ≤ 'z')) = "tomato" := by decide
  have h1 : normalize_disfluencies "t-t-tomato" = "tttomato" := by decide
  unfold analyze_pronunciation
  rw [hech]
  dsimp only
  rw [h0, h1]
  rcases calc_tomato_stutter dm with h | h | h <;> rw [h] <;> dsimp only
  · exact ⟨_, rfl, by norm_num, Or.inl rfl⟩
  · exact ⟨_, rfl, by norm_num, Or.inr (Or.inl rfl)⟩
  · exact ⟨_, rfl, by norm_num, Or.inr (Or.inr rfl)⟩

/-- Claim C3 (amended), witness: the metaphone function `fun s => (s, s)`,
which sends the pair to the edit-distance path. -/
theorem C3_amended_witness :
    normalize_disfluencies "t-t-tomato" = "tttomato" ∧
    ∃ r, analyze_pronunciation (fun s => (s, s)) "tomato" "t-t-tomato" =
        Except.ok r ∧
      r.is_correct = true ∧
      (r.similarity_score = 0.9 ∨ r.similarity_score = 0.8 ∨
        r.similarity_score = 1) :=
  C3_amended (fun s => (s, s))

/-- Claim C4: a raw transcript that splits into more than one token, all
identical, is classified as echolalia: correct, similarity 0.95, special
case tag `"echolalia"` — regardless of the expected word and of the
metaphone function. -/
theorem C4_echolalia (dm : String → String × String) (expected actual : String)
    (t : String) (ts : List String)
    (h1 : pySplit actual = t :: ts) (h2 : ts ≠ [])
    (h3 : ∀ u ∈ ts, u = t) :
    analyze_pronunciation dm expected actual =
      Except.ok
        { is_correct := true, similarity_score := 0.95,
          feedback := "Good repeating! Now try saying it just once.",
          phonetic_similarity := 0.95, special_case := some "echolalia" } := by
  have hech : is_echolalic actual = true := by
    unfold is_echolalic
    rw [pySplit_pyLower, h1]
    rcases ts with _ | ⟨u, us⟩
    · exact absurd rfl h2
    · dsimp only [List.map_cons]
      rw [List.all_eq_true]
      intro x hx
      rcases List.mem_cons.mp hx with rfl | hx2
      · rw [h3 u (by simp)]
        simp
      · obtain ⟨y, hy, rfl⟩ := List.mem_map.mp hx2
        rw [h3 y (by simp [hy])]
        simp
  unfold analyze_pronunciation
  rw [hech]
  rfl

/-- Claim C4, witness at `score("cat", "cat cat")`. -/
theorem C4_witness :
    analyze_pronunciation (fun _ => ("", "")) "cat" "cat cat" =
      Except.ok
        { is_correct := true, similarity_score := 0.95,
          feedback := "Good repeating! Now try saying it just once.",
          phonetic_similarity := 0.95, special_case := some "echolalia" } :=
  C4_echolalia _ "cat" "cat cat" "cat" ["cat"] (by decide) (by decide)
    (by decide)

/-- The profile of a child with two strong categories (scores 0.8 and 0.9)
and no recorded activities. -/
theorem profile_two_strengths :
    analyze_child_profile [⟨1, 0.8⟩, ⟨2, 0.9⟩] [] =
      ⟨[toString 1, toString 2], [], "hard", none⟩ := by
  unfold analyze_child_profile
  rw [if_neg (by simp)]
  dsimp only
  have hne : ([⟨1, (0.8 : ℚ)⟩, ⟨2, (0.9 : ℚ)⟩] : List ChildPerformance) = []
      ↔ False := by simp
  rw [show profileVerbalTotal [] = 0 from rfl,
    show profileSelectionTotal [] = 0 from rfl]
  simp only [ne_eq, hne, not_false_eq_true, if_true]
  norm_num [List.filter]

/-- The generated path of that child carries no `priority` key on any
item. -/
theorem generated_path_has_no_priority :
    (generate_learning_path [⟨1, 0.8⟩, ⟨2, 0.9⟩] []
        [⟨1, "Animals", some "easy"⟩, ⟨2, "Food", some "easy"⟩]).map
      (fun i => i.priority) = [none, none] := by
  unfold generate_learning_path
  rw [profile_two_strengths]
  decide

/-- Claim C5, failing run: after generating and persisting the learning path
of a child with two strength categories, both stored rows have
`current_priority = 0` (the generator emits no `priority` key and
`save_learning_path` defaults it to 0) — not the contiguous sequence
`[1, 2]`. -/
theorem C5_priorities_all_zero :
    ((save_learning_path (.plist (generate_learning_path
          [⟨1, 0.8⟩, ⟨2, 0.9⟩] []
          [⟨1, "Animals", some "easy"⟩, ⟨2, "Food", some "easy"⟩]))).map
        (fun r => r.current_priority) = [0, 0]) ∧
    ([0, 0] : List ℤ) ≠ [1, 2] := by
  refine ⟨?_, by decide⟩
  have hsave : ∀ l : List PItem,
      (save_learning_path (.plist l)).map (fun r => r.current_priority) =
        (l.map (fun i => i.priority)).map (fun p => p.getD 0) := by
    intro l
    simp [save_learning_path, List.map_map]
  rw [hsave, generated_path_has_no_priority]
  rfl

/-- Claim C6, failing run: with one stored path item (target 0.7) and one
performance row, `update_learning_path` raises `TypeError` — the loop
iterates the keys of the dict returned by `get_current_learning_path` and
indexes a string with `'category_id'`. -/
theorem C6_update_learning_path_raises :
    update_learning_path [⟨1, 0.7, 1, "pending"⟩] 42 [⟨1, 0.9⟩] []
        [⟨1, "Animals", some "easy"⟩] =
      Except.error "TypeError: string indices must be integers" := by
  unfold update_learning_path get_current_learning_path
  rw [if_neg (by simp :
    ¬([(⟨1, 0.7, 1, "pending"⟩ : LearningPathRow)] = []))]
  dsimp only
  rw [if_pos (by simp :
    ([(⟨1, (0.9 : ℚ)⟩ : ChildPerformance)] ≠ []))]

/-- The profile of a child with one correct verbal and one incorrect
nonverbal attempt: preferred modality `"verbal"`. -/
theorem profile_prefers_verbal :
    analyze_child_profile [] [⟨"verbal", true⟩, ⟨"nonverbal", false⟩] =
      ⟨[], [], "easy", some "verbal"⟩ := by
  unfold analyze_child_profile
  rw [if_neg (by simp)]
  dsimp only
  rw [show profileVerbalTotal [⟨"verbal", true⟩, ⟨"nonverbal", false⟩] = 1
      from by decide,
    show profileVerbalSuccess [⟨"verbal", true⟩, ⟨"nonverbal", false⟩] = 1
      from by decide,
    show profileSelectionTotal [⟨"verbal", true⟩, ⟨"nonverbal", false⟩] = 1
      from by decide,
    show profileSelectionSuccess [⟨"verbal", true⟩, ⟨"nonverbal", false⟩] = 0
      from by decide]
  norm_num

/-- Claim C7, failing run: with a verbal-preferring child on track
(score 0.5) and two medium candidates, one carrying an audio asset and one
not, `select_next_activity` returns the one *without* audio: the ascending
sort on `(audio_url is not None, difficulty)` places items lacking the asset
first. -/
theorem C7_returns_item_without_asset :
    select_next_activity (some ⟨7, 0.5⟩) (some "medium")
        [⟨1, some "medium", none, some "img1"⟩,
         ⟨2, some "medium", some "aud2", some "img2"⟩]
        [] [] [⟨"verbal", true⟩, ⟨"nonverbal", false⟩] =
      some ⟨1, some "medium", none, some "img1"⟩ ∧
    (⟨1, some "medium", none, some "img1"⟩ : ActivityItem).audio_url = none ∧
    (⟨2, some "medium", some "aud2", some "img2"⟩ :
      ActivityItem).audio_url ≠ none := by
  refine ⟨?_, rfl, by simp⟩
  unfold select_next_activity
  rw [if_neg (by simp :
    ¬([(⟨1, some "medium", none, some "img1"⟩ : ActivityItem),
       ⟨2, some "medium", some "aud2", some "img2"⟩] = []))]
  dsimp only
  rw [if_neg (by norm_num : ¬(0.5 : ℚ) < 0.1),
    if_neg (by norm_num : ¬(0.5 : ℚ) < 0.4),
    if_neg (by norm_num : ¬(0.5 : ℚ) > 0.8)]
  rw [profile_prefers_verbal]
  decide

/-- The result of a left fold with a binary choice is the accumulator or an
element of the list. -/
theorem foldl_choose_mem (g : α → α → α)
    (hg : ∀ a b, g a b = a ∨ g a b = b) :
    ∀ (xs : List α) (acc : α), xs.foldl g acc = acc ∨ xs.foldl g acc ∈ xs := by
  intro xs
  induction xs with
  | nil => intro acc; left; rfl
  | cons y ys ih =>
    intro acc
    rw [List.foldl_cons]
    rcases ih (g acc y) with h | h
    · rw [h]
      rcases hg acc y with h2 | h2
      · left; exact h2
      · right; rw [h2]; exact List.mem_cons_self y ys
    · right
      exact List.mem_cons_of_mem y h

/-- `max(l, key=f)` returns an element of `l`. -/
theorem firstMaxBy_mem (f : α → ℚ) (l : List α) (p : α)
    (h : firstMaxBy f l = some p) : p ∈ l := by
  cases l with
  | nil => simp [firstMaxBy] at h
  | cons x xs =>
    simp only [firstMaxBy, Option.some.injEq] at h
    subst h
    rcases foldl_choose_mem (fun best y => if f y > f best then y else best)
        (fun a b => by dsimp only; split
                       · exact Or.inr rfl
                       · exact Or.inl rfl) xs x with h | h
    · rw [h]; exact List.mem_cons_self x xs
    · exact List.mem_cons_of_mem x h

/-- `min(l, key=f)` returns an element of `l`. -/
theorem firstMinBy_mem (f : α → ℚ) (l : List α) (p : α)
    (h : firstMinBy f l = some p) : p ∈ l := by
  cases l with
  | nil => simp [firstMinBy] at h
  | cons x xs =>
    simp only [firstMinBy, Option.some.injEq] at h
    subst h
    rcases foldl_choose_mem (fun best y => if f y < f best then y else best)
        (fun a b => by dsimp only; split
                       · exact Or.inr rfl
                       · exact Or.inl rfl) xs x with h | h
    · rw [h]; exact List.mem_cons_self x xs
    · exact List.mem_cons_of_mem x h

/-- When every performance row has its joined category, the progress report
does not raise. -/
theorem generate_progress_report_ok (performances : List RecPerformance)
    (hcat : ∀ p ∈ performances, p.category.isSome) :
    ∃ r, generate_progress_report performances = Except.ok r := by
  unfold generate_progress_report
  rcases hmax : firstMaxBy (fun p => p.overall_score) performances with _ | q
  · rcases hmin : firstMinBy (fun p => p.overall_score) performances with _ | q2
    · rw [hmax, hmin]
      exact ⟨_, rfl⟩
    · obtain ⟨n2, hn2⟩ := Option.isSome_iff_exists.mp
        (hcat q2 (firstMinBy_mem _ _ _ hmin))
      rw [hmax, hmin]
      unfold pyCategoryName
      dsimp only
      rw [hn2]
      exact ⟨_, rfl⟩
  · obtain ⟨n1, hn1⟩ := Option.isSome_iff_exists.mp
      (hcat q (firstMaxBy_mem _ _ _ hmax))
    rcases hmin : firstMinBy (fun p => p.overall_score) performances with _ | q2
    · rw [hmax, hmin]
      unfold pyCategoryName
      dsimp only
      rw [hn1]
      exact ⟨_, rfl⟩
    · obtain ⟨n2, hn2⟩ := Option.isSome_iff_exists.mp
        (hcat q2 (firstMinBy_mem _ _ _ hmin))
      rw [hmax, hmin]
      unfold pyCategoryName
      dsimp only
      rw [hn1, hn2]
      exact ⟨_, rfl⟩

/-- When every performance row has its joined category, the rule-based
payload is produced without an error. -/
theorem rule_based_ok (performances : List RecPerformance)
    (catalog : List RecCategory)
    (hcat : ∀ p ∈ performances, p.category.isSome) :
    ∃ payload, get_rule_based_recommendations performances catalog =
      Except.ok payload := by
  by_cases hp : performances = []
  · exact ⟨get_initial_recommendations catalog,
      by rw [get_rule_based_recommendations, if_pos hp]⟩
  · obtain ⟨r, hr⟩ := generate_progress_report_ok performances hcat
    rcases hgrb : get_rule_based_recommendations performances catalog
      with e | payload
    · exfalso
      rw [get_rule_based_recommendations, if_neg hp] at hgrb
      dsimp only at hgrb
      rw [hr] at hgrb
      exact Except.noConfusion hgrb
    · exact ⟨payload, rfl⟩

/-- Every successful rule-based payload has its model fields absent. -/
theorem rule_based_ml_none (performances : List RecPerformance)
    (catalog : List RecCategory) (payload : RecPayload)
    (h : get_rule_based_recommendations performances catalog =
      Except.ok payload) :
    payload.ml_recommendation = none := by
  rw [get_rule_based_recommendations] at h
  by_cases hp : performances = []
  · rw [if_pos hp] at h
    obtain rfl : get_initial_recommendations catalog = payload := by
      simpa using h
    rfl
  · rw [if_neg hp] at h
    dsimp only at h
    rcases hrep : generate_progress_report performances with e | r
    · rw [hrep] at h
      simp at h
    · rw [hrep] at h
      dsimp only at h
      obtain rfl : _ = payload := by simpa using h
      rfl

/-- Claim C8: when the model prediction fails, `get_recommendations` answers
with exactly the rule-based outcome, and — whenever every performance row
has its joined category, so that the rule-based part itself cannot raise its
nullable-category `AttributeError` — no error escapes and the payload has no
model fields. -/
theorem C8_model_failure_degrades (predict : ChildData → Except String String)
    (performances : List RecPerformance)
    (catalog sessionCategories : List RecCategory)
    (sessions : List (ℚ × ℚ)) (e : String)
    (hcat : ∀ p ∈ performances, p.category.isSome)
    (h : predict (prepare_ml_input performances sessionCategories sessions) =
      Except.error e) :
    get_recommendations predict performances catalog sessionCategories
        sessions =
      get_rule_based_recommendations performances catalog ∧
    ∃ payload,
      get_recommendations predict performances catalog sessionCategories
          sessions = Except.ok payload ∧
      payload.ml_recommendation = none := by
  have h1 : get_recommendations predict performances catalog sessionCategories
      sessions = get_rule_based_recommendations performances catalog := by
    rw [get_recommendations]
    dsimp only
    rw [h]
  obtain ⟨payload, hpay⟩ := rule_based_ok performances catalog hcat
  exact ⟨h1, payload, by rw [h1]; exact hpay,
    rule_based_ml_none performances catalog payload hpay⟩

/-- Claim C8, witness: a prediction function that always fails, on a child
with one performance row whose category is present. -/
theorem C8_witness :
    (get_recommendations (fun _ => Except.error "model unavailable")
        [⟨some "Animals", 0.5, 1, 1, 1, 0⟩] [] [] [] =
      get_rule_based_recommendations [⟨some "Animals", 0.5, 1, 1, 1, 0⟩] []) ∧
    ∃ payload,
      (get_recommendations (fun _ => Except.error "model unavailable")
          [⟨some "Animals", 0.5, 1, 1, 1, 0⟩] [] [] [] =
        Except.ok payload) ∧
      payload.ml_recommendation = none :=
  C8_model_failure_degrades _ _ _ _ _ "model unavailable"
    (by intro p hp
        simp only [List.mem_singleton] at hp
        subst hp
        rfl)
    rfl

/-- Claim C9: the trend is `"no data"` for an empty window and
`"insufficient data"` for a nonempty window resampling to fewer than two
weekly buckets. -/
theorem C9_trend_degenerate (data : List TrendRow) :
    (data = [] → (calculate_trend data).trend = "no data") ∧
    (data ≠ [] → trendNumWeeks data < 2 →
      (calculate_trend data).trend = "insufficient data") := by
  constructor
  · intro h
    simp [calculate_trend, h]
  · intro h1 h2
    have h3 : ¬ trendNumWeeks data > 1 := by omega
    simp [calculate_trend, h1, h3]

/-- Claim C9, witness: an empty window, and the single-session window with
pronunciation score 0.5 (one weekly bucket only). -/
theorem C9_witness :
    (calculate_trend []).trend = "no data" ∧
    (calculate_trend [⟨20275, 0.5, "Animals"⟩]).trend = "insufficient data" :=
  ⟨(C9_trend_degenerate []).1 rfl,
   (C9_trend_degenerate [⟨20275, 0.5, "Animals"⟩]).2 (by simp) (by decide)⟩

/-- Claim C10: on attempts that are all `"nonverbal"` the aggregator counts
no selection attempts or successes (it matches only `"select"`), while the
profile analyzer's selection counter counts every one of them. -/
theorem C10_selection_mismatch (activities : List Activity)
    (h : ∀ a ∈ activities, a.response_type = "nonverbal") :
    (update_performance_metrics activities).selection_attempts = 0 ∧
    (update_performance_metrics activities).selection_success = 0 ∧
    profileSelectionTotal activities = activities.length := by
  refine ⟨?_, ?_, ?_⟩
  · simp only [update_performance_metrics]
    rw [List.countP_eq_zero]
    intro a ha
    simp [h a ha]
  · simp only [update_performance_metrics]
    rw [List.countP_eq_zero]
    intro a ha
    simp [h a ha]
  · simp only [profileSelectionTotal]
    rw [List.countP_eq_length]
    intro a ha
    simp [h a ha]

/-- Claim C10, witness: two nonverbal attempts. -/
theorem C10_witness :
    (update_performance_metrics
      [⟨"nonverbal", true⟩, ⟨"nonverbal", false⟩]).selection_attempts = 0 ∧
    (update_performance_metrics
      [⟨"nonverbal", true⟩, ⟨"nonverbal", false⟩]).selection_success = 0 ∧
    profileSelectionTotal [⟨"nonverbal", true⟩, ⟨"nonverbal", false⟩] =
      [(⟨"nonverbal", true⟩ : Activity), ⟨"nonverbal", false⟩].length :=
  C10_selection_mismatch [⟨"nonverbal", true⟩, ⟨"nonverbal", false⟩]
    (by decide)

end SpeechTherapy
